import Mathlib

/-!
Verification of the RTSK streaming toolkit core (stream controller,
transport drivers, transport factory) against its natural-language
specification.

The development is a shallow embedding of the TypeScript sources:

* error model            — `src/core/types/error.ts`
* stream controller      — `src/core/stream/createStream.ts` (current build,
                           the variant with `disconnectTransportSafely`)
* NDJSON driver          — `src/core/transport/ndjson.ts`
* WebSocket driver       — `src/core/transport/websocket.ts`
* transport factory      — `src/core/transport/factory.ts`

Mutable controller / driver state is passed explicitly; callback
invocations and other externally visible side effects are recorded as
explicit action traces so that ordering claims can be stated.  Host
primitives (fetch, JSON.parse, EventSource, WebSocket, timers) are
modelled as parameters or as abstract events delivered to the registered
handlers.
-/

/-- Lifecycle statuses reported by stream controllers
(`src/core/types/status.ts`, `RTSKStatus`). -/
inductive RTSKStatus where
  | idle
  | connecting
  | streaming
  | completed
  | error
  | stopped
deriving DecidableEq, Repr

/-- Error categories surfaced by the SDK (`src/core/types/error.ts`,
`RTSKErrorKind`). -/
inductive RTSKErrorKind where
  | transport
  | hydrate
  | protocol
  | internal
deriving DecidableEq, Repr

/-- Structured error used throughout the toolkit (`src/core/types/error.ts`,
`RTSKError`).  The `cause` field of the source is an opaque `unknown`
payload never inspected by the code, so it is omitted from the embedding;
`kind`, `message` and `statusBefore` are carried verbatim. -/
structure RTSKError where
  kind : RTSKErrorKind
  message : String
  statusBefore : Option RTSKStatus := none
deriving DecidableEq, Repr

/-- Mutable state of one stream controller: the `status`, `active`,
`subscribers` and `transport` locals of `createStream`
(`src/core/stream/createStream.ts`).  Subscribers are identified by
numeric ids; a JavaScript `Set` iterates in insertion order, so the set of
handler bundles is modelled as a list of ids.  `transport` records whether
a transport instance is currently held (`transport !== null`). -/
structure ControllerState where
  status : RTSKStatus
  active : Bool
  subscribers : List Nat
  transport : Bool
deriving DecidableEq, Repr

/-- Externally visible actions performed by the controller, in program
order: transport creation (`createTransportForDefinition`), the
`transport.connect` call with its payload, `transport.disconnect()`, and
the four subscriber callbacks.  `P` is the payload type handed to
`connect`, `V` the hydrated value type. -/
inductive CAction (P V : Type) where
  | createTransport
  | connectCall (payload : P)
  | disconnectTransport
  | cbStatusChange (sub : Nat) (newStatus : RTSKStatus)
  | cbNext (sub : Nat) (value : V)
  | cbError (sub : Nat) (e : RTSKError)
  | cbComplete (sub : Nat)
deriving DecidableEq, Repr

/-- Reason tag passed to `disconnectTransportSafely` in `createStream`. -/
inductive DiscReason where
  | error
  | complete
  | stop
deriving DecidableEq, Repr

/-- `notifyStatus` of `createStream`: no-op when the new status equals the
current one, otherwise mutate `status` and fan `onStatusChange` out to
every subscriber. -/
def notifyStatus {P V : Type} (newStatus : RTSKStatus) (s : ControllerState) :
    ControllerState × List (CAction P V) :=
  if s.status = newStatus then (s, [])
  else
    ({ s with status := newStatus },
      s.subscribers.map (fun i => CAction.cbStatusChange i newStatus))

/-- `disconnectTransportSafely` of `createStream`: if a transport is held,
call its `disconnect()` and null the reference; a `disconnect` failure
(modelled by the `discThrows` flag) is reported to subscribers as an
`internal` error only when the reason is `stop` — on `error`/`complete`
it is swallowed so the primary signal is not overwritten. -/
def disconnectTransportSafely {P V : Type} (discThrows : Bool)
    (reason : DiscReason) (s : ControllerState) :
    ControllerState × List (CAction P V) :=
  if !s.transport then (s, [])
  else
    let reported : List (CAction P V) :=
      if discThrows then
        match reason with
        | DiscReason.stop =>
            s.subscribers.map (fun i =>
              CAction.cbError i
                ⟨RTSKErrorKind.internal, "Error while disconnecting transport",
                  some s.status⟩)
        | _ => []
      else []
    ({ s with transport := false },
      CAction.disconnectTransport :: reported)

/-- `notifyError` of `createStream`: force-disconnect the transport, move
to status `error`, clear the active flag, then fan `onError` out to every
subscriber. -/
def notifyError {P V : Type} (discThrows : Bool) (e : RTSKError)
    (s : ControllerState) : ControllerState × List (CAction P V) :=
  let r1 := disconnectTransportSafely (P := P) (V := V) discThrows DiscReason.error s
  let r2 := notifyStatus (P := P) (V := V) RTSKStatus.error r1.1
  let s3 := { r2.1 with active := false }
  (s3, r1.2 ++ r2.2 ++ s3.subscribers.map (fun i => CAction.cbError i e))

/-- `notifyComplete` of `createStream`: force-disconnect the transport,
move to status `completed`, clear the active flag, then fan `onComplete`
out to every subscriber. -/
def notifyComplete {P V : Type} (discThrows : Bool) (s : ControllerState) :
    ControllerState × List (CAction P V) :=
  let r1 := disconnectTransportSafely (P := P) (V := V) discThrows DiscReason.complete s
  let r2 := notifyStatus (P := P) (V := V) RTSKStatus.completed r1.1
  let s3 := { r2.1 with active := false }
  (s3, r1.2 ++ r2.2 ++ s3.subscribers.map (fun i => CAction.cbComplete i))

/-- `stop` of `createStream`: no-op when inactive and not in a
`connecting`/`streaming` phase; otherwise clear the active flag,
disconnect (reporting disconnect failures), and transition to `stopped`. -/
def stopFn {P V : Type} (discThrows : Bool) (s : ControllerState) :
    ControllerState × List (CAction P V) :=
  if !s.active ∧ s.status ≠ RTSKStatus.connecting ∧ s.status ≠ RTSKStatus.streaming then
    (s, [])
  else
    let s1 := { s with active := false }
    let r2 := disconnectTransportSafely (P := P) (V := V) discThrows DiscReason.stop s1
    let r3 := notifyStatus (P := P) (V := V) RTSKStatus.stopped r2.1
    (r3.1, r2.2 ++ r3.2)

/-- Declarative stream definition (`src/core/definitions/base.ts` and the
mode-specific variants).  `mode` is a string because the factory's default
branch exists precisely for runtime values outside the declared union.
The `requestMapper` is optional; `responseHydrator` is mandatory and may
throw, modelled as `Except Unit V`.  Transport options are carried for the
factory; `meta` is never read by the core and is omitted. -/
structure TransportOptions where
  headers : Option (List (String × String)) := none
  query : Option (List (String × Option String)) := none
  timeoutMs : Option Nat := none
deriving DecidableEq, Repr

/-- SSE extra options of a stream definition (`sseOptions`). -/
structure SseOptions where
  withCredentials : Option Bool := none
  retryIntervalMs : Option Nat := none
deriving DecidableEq, Repr

/-- WebSocket extra options of a stream definition (`wsOptions`). -/
structure WsOptions where
  protocols : Option (List String) := none
  autoReconnect : Option Bool := none
  reconnectDelayMs : Option Nat := none
deriving DecidableEq, Repr

/-- Stream definition consumed by `createStream` and the transport
factory.  `Req` is the request type, `M` the request-mapper output type,
`Raw` the wire-level value type, `V` the hydrated value type. -/
structure StreamDef (Req M Raw V : Type) where
  mode : String
  endpoint : String
  transportOptions : Option TransportOptions := none
  requestMapper : Option (Req → M) := none
  responseHydrator : Raw → Except Unit V
  sseOptions : Option SseOptions := none
  wsOptions : Option WsOptions := none

/-- Payload handed to `transport.connect` by `start`:
`definition.requestMapper && request !== undefined ?
definition.requestMapper(request) : request`.  The second component
counts how many times the caller-supplied mapper was invoked (0 or 1),
instrumenting the same expression. -/
def computePayload {Req M : Type} (mapper : Option (Req → M))
    (request : Option Req) : Option (Req ⊕ M) × Nat :=
  match mapper, request with
  | some m, some r => (some (Sum.inr (m r)), 1)
  | _, _ => (request.map Sum.inl, 0)

/-- The `onRaw` handler `start` registers with the transport: hydrate the
raw value; on success promote `connecting` to `streaming` and fan the
hydrated value out via `onNext`; on a hydrator throw, build a `hydrate`
error carrying the prior status and route it through `notifyError`. -/
def handleRaw {P Raw V : Type} (hyd : Raw → Except Unit V) (discThrows : Bool)
    (raw : Raw) (s : ControllerState) : ControllerState × List (CAction P V) :=
  match hyd raw with
  | Except.ok v =>
      let r1 :=
        if s.status = RTSKStatus.connecting then
          notifyStatus (P := P) (V := V) RTSKStatus.streaming s
        else (s, [])
      (r1.1, r1.2 ++ r1.1.subscribers.map (fun i => CAction.cbNext i v))
  | Except.error _ =>
      notifyError discThrows
        ⟨RTSKErrorKind.hydrate, "Failed to hydrate stream payload", some s.status⟩ s

/-- Outcome of the synchronous `transport.connect` call inside `start`'s
`try` block: it returns normally (all three drivers deliver their events
asynchronously, afterwards), or it throws an `RTSKError`, or it throws
some other value (wrapped by `start` as an `internal` error). -/
inductive ConnectBehavior where
  | ok
  | throwRTSK (e : RTSKError)
  | throwOther
deriving DecidableEq, Repr

/-- `start` of `createStream`: no-op when already active; otherwise set
`active`, transition to `connecting`, create a fresh transport, compute
the payload, call `connect`, and — when the state is still `connecting`
after `connect` returned — optimistically advance to `streaming`.  A
synchronous throw from `connect` is routed through `notifyError`,
wrapped as an `internal` error unless it already is an `RTSKError`. -/
def startFn {Req M Raw V : Type} (beh : ConnectBehavior)
    (d : StreamDef Req M Raw V) (request : Option Req) (discThrows : Bool)
    (s : ControllerState) :
    ControllerState × List (CAction (Option (Req ⊕ M)) V) :=
  if s.active then (s, [])
  else
    let s1 := { s with active := true }
    let r2 := notifyStatus (P := Option (Req ⊕ M)) (V := V) RTSKStatus.connecting s1
    let s3 := { r2.1 with transport := true }
    let payload := (computePayload d.requestMapper request).1
    let pre := r2.2 ++ [CAction.createTransport, CAction.connectCall payload]
    match beh with
    | ConnectBehavior.ok =>
        let r4 :=
          if s3.status = RTSKStatus.connecting then
            notifyStatus (P := Option (Req ⊕ M)) (V := V) RTSKStatus.streaming s3
          else (s3, [])
        (r4.1, pre ++ r4.2)
    | ConnectBehavior.throwRTSK e =>
        let r4 := notifyError discThrows e s3
        (r4.1, pre ++ r4.2)
    | ConnectBehavior.throwOther =>
        let r4 := notifyError discThrows
          ⟨RTSKErrorKind.internal, "Failed to start stream", some s3.status⟩ s3
        (r4.1, pre ++ r4.2)

/-- One asynchronous callback from the transport driver into the
controller: a raw value (`onRaw`), a driver error (`onError`), or clean
completion (`onComplete`). -/
inductive DriverEvent (Raw : Type) where
  | raw (v : Raw)
  | error (e : RTSKError)
  | complete
deriving DecidableEq, Repr

/-- Delivery of one driver event through the handlers `start` registered. -/
def deliverEvent {P Raw V : Type} (hyd : Raw → Except Unit V)
    (discThrows : Bool) (s : ControllerState) :
    DriverEvent Raw → ControllerState × List (CAction P V)
  | DriverEvent.raw v => handleRaw hyd discThrows v s
  | DriverEvent.error e => notifyError discThrows e s
  | DriverEvent.complete => notifyComplete discThrows s

/-- Asynchronous delivery of the driver's events to the controller, in
order.  Delivery is unconditional: the controller's handlers run for
every callback the driver invokes, and the controller's forced
disconnect does not silence a driver mid-flight — after the NDJSON
abort the pending `reader.read()` rejects and the driver's catch block
still calls `handlers.onError` without checking any flag, and the
WebSocket `onclose` still fires `onComplete` after `disconnect()`.  The
event list is therefore the sequence of callbacks the driver actually
invokes. -/
def runDriver {P Raw V : Type} (hyd : Raw → Except Unit V) (discThrows : Bool)
    (s : ControllerState) :
    List (DriverEvent Raw) → ControllerState × List (CAction P V)
  | [] => (s, [])
  | ev :: rest =>
    let r1 := deliverEvent hyd discThrows s ev
    let r2 := runDriver hyd discThrows r1.1 rest
    (r2.1, r1.2 ++ r2.2)

/-- A full run: `start` with a `connect` that returns normally, followed
by the driver's asynchronous events. -/
def runStream {Req M Raw V : Type} (d : StreamDef Req M Raw V)
    (request : Option Req) (discThrows : Bool)
    (events : List (DriverEvent Raw)) (s : ControllerState) :
    ControllerState × List (CAction (Option (Req ⊕ M)) V) :=
  let r1 := startFn ConnectBehavior.ok d request discThrows s
  let r2 := runDriver d.responseHydrator discThrows r1.1 events
  (r2.1, r1.2 ++ r2.2)

/-- State of a freshly created controller (`createStream` locals before
any call): status `idle`, inactive, no transport, with the given
subscribers registered via `subscribe`. -/
def initialController (subs : List Nat) : ControllerState :=
  { status := RTSKStatus.idle, active := false, subscribers := subs,
    transport := false }

/-- JavaScript whitespace recognized by `String.prototype.trim` as far as
the ASCII range is concerned (space, tab, LF, CR, vertical tab, form
feed).  `trim` is applied uniformly on both sides of the refinement, so
the exact whitespace set does not affect any claim. -/
def isJsWs (c : Char) : Bool :=
  c = ' ' || c = '\t' || c = '\n' || c = '\r' || c = '\x0b' || c = '\x0c'

/-- `line.trim()` on a character list: drop whitespace from both ends. -/
def jsTrim (l : List Char) : List Char :=
  ((l.dropWhile isJsWs).reverse.dropWhile isJsWs).reverse

/-- Events the NDJSON read loop emits through its handlers: `onRaw` with a
parsed value, `onError` with a `protocol`-kind error for one offending
(trimmed) line, and `onComplete`.  The two protocol error messages of the
source ("Invalid NDJSON line" / "Invalid trailing NDJSON line") share the
kind `protocol`; the event records the offending line. -/
inductive NdEvent (Raw : Type) where
  | raw (v : Raw)
  | protoErr (line : List Char)
  | complete
deriving DecidableEq, Repr

/-- Per-line handling of the NDJSON read loop: trim, skip when blank,
otherwise `JSON.parse` (the host parser is the `parse` parameter) and
emit `onRaw`, or emit one `protocol` error for this line on parse
failure.  The trailing-buffer flush after the loop runs the identical
trim/skip/parse steps. -/
def processLine {Raw : Type} (parse : List Char → Option Raw)
    (line : List Char) : List (NdEvent Raw) :=
  let trimmed := jsTrim line
  if trimmed.isEmpty then []
  else
    match parse trimmed with
    | some v => [NdEvent.raw v]
    | none => [NdEvent.protoErr trimmed]

/-- Events emitted for a list of complete lines, in order. -/
def feedLines {Raw : Type} (parse : List Char → Option Raw) :
    List (List Char) → List (NdEvent Raw)
  | [] => []
  | l :: ls => processLine parse l ++ feedLines parse ls

/-- Helper for `splitRN`: prepend a character to the first segment. -/
def consHead (c : Char) : List (List Char) → List (List Char)
  | [] => [[c]]
  | s :: ss => (c :: s) :: ss

/-- `buffer.split(/\r?\n/)` on a character list: segments separated by
`\n` or `\r\n` (a lone `\r` is not a separator).  Always nonempty, like
the JavaScript result. -/
def splitRN : List Char → List (List Char)
  | [] => [[]]
  | '\r' :: '\n' :: rest => [] :: splitRN rest
  | '\n' :: rest => [] :: splitRN rest
  | c :: rest => consHead c (splitRN rest)

/-- The NDJSON read loop of `NdjsonTransport.connect` over the decoded
text chunks: append the chunk to the buffer, split on `/\r?\n/`, pop the
last segment back into the buffer (`lines.pop() ?? ""`), emit events for
every complete line; when the reader reports done, flush the remaining
buffer through the same per-line path and emit `onComplete`. -/
def connectLoop {Raw : Type} (parse : List Char → Option Raw)
    (buffer : List Char) : List (List Char) → List (NdEvent Raw)
  | [] => processLine parse buffer ++ [NdEvent.complete]
  | chunk :: rest =>
    let segs := splitRN (buffer ++ chunk)
    feedLines parse segs.dropLast ++ connectLoop parse (segs.getLastD []) rest

/-- Full event stream produced by the NDJSON driver for a successful
response whose body decodes to the given text chunks. -/
def ndjsonStreamEvents {Raw : Type} (parse : List Char → Option Raw)
    (chunks : List (List Char)) : List (NdEvent Raw) :=
  connectLoop parse [] chunks

/-- Modelled from the spec's wording for the same behavior, for the
refinement claim: split the whole accumulated body text on `\n` / `\r\n`
boundaries, run every resulting line — the trailing partial line
included — through the identical trim/skip/parse-or-error path, then
emit `onComplete`. -/
def ndjsonSpecEvents {Raw : Type} (parse : List Char → Option Raw)
    (text : List Char) : List (NdEvent Raw) :=
  feedLines parse (splitRN text) ++ [NdEvent.complete]

/-- The HTTP request `NdjsonTransport.connect` builds before fetching:
method, header map and body.  The body is the JSON-serialized payload;
serialization is a host primitive, so the body carries the payload value
itself. -/
structure NdjsonConnectRequest (J : Type) where
  method : String
  headerOf : String → Option String
  body : Option J

/-- Request construction of `NdjsonTransport.connect` (the
`payload`/`method`/`headers`/`body` block): `options?.payload ?? null`
(both `null` and `undefined` are `none`); `POST` with a body when a
payload is present, else `GET` with none; the header object spreads the
automatic `Content-Type: application/json` entry (present only with a
body) first and the caller-supplied headers after it, so the caller's
entry wins on key collision. -/
def ndjsonBuildRequest {J : Type} (cfgHeaders : Option (List (String × String)))
    (payload : Option J) : NdjsonConnectRequest J :=
  { method := if payload.isSome then "POST" else "GET"
    headerOf := fun k =>
      match List.lookup k (cfgHeaders.getD []) with
      | some v => some v
      | none =>
          if payload.isSome ∧ k = "Content-Type" then some "application/json"
          else none
    body := payload }

/-- Runtime configuration of the WebSocket transport
(`WebsocketTransportConfig` in `src/core/transport/websocket.ts`). -/
structure WebsocketTransportConfig where
  endpoint : String
  query : Option (List (String × Option String)) := none
  protocols : Option (List String) := none
  autoReconnect : Option Bool := none
  reconnectDelayMs : Option Nat := none
deriving DecidableEq, Repr

/-- Mutable fields of `WebsocketTransport`: whether a socket object is
held (`socket !== null`), whether it is currently OPEN, whether handlers
were registered by `connect`, and the `active` / `manualClose` flags. -/
structure WsRuntime where
  hasSocket : Bool := false
  socketOpen : Bool := false
  hasHandlers : Bool := false
  active : Bool := false
  manualClose : Bool := false
deriving DecidableEq, Repr

/-- Externally visible actions of the WebSocket driver: invoking the
controller's `onComplete`, scheduling the reconnect timer with its delay
in milliseconds (`window.setTimeout`), opening a new socket
(`openSocket`, i.e. `new WebSocket(...)`), and closing the socket. -/
inductive WsAction where
  | complete
  | scheduleReconnect (delayMs : Nat)
  | openSocket
  | closeSocket
deriving DecidableEq, Repr

/-- The `ws.onclose` handler installed by `openSocket`: clear `active`;
if handlers are registered, fire `onComplete`; then, when the close was
not caused by a manual `disconnect` and `autoReconnect` is enabled,
schedule a reconnect after `reconnectDelayMs ?? 1000` milliseconds. -/
def onCloseHandler (cfg : WebsocketTransportConfig) (s : WsRuntime) :
    WsRuntime × List WsAction :=
  let s1 := { s with active := false, socketOpen := false }
  if !s1.hasHandlers then (s1, [])
  else if s1.manualClose = false ∧ cfg.autoReconnect = some true then
    (s1, [WsAction.complete,
          WsAction.scheduleReconnect (cfg.reconnectDelayMs.getD 1000)])
  else (s1, [WsAction.complete])

/-- The callback the reconnect timer runs when it fires: if `disconnect`
was called in the meantime (`manualClose`) or the handlers are gone, do
nothing; otherwise `openSocket()` again. -/
def reconnectTimerCallback (s : WsRuntime) : WsRuntime × List WsAction :=
  if s.manualClose = false ∧ s.hasHandlers then
    ({ s with hasSocket := true, socketOpen := false, active := true },
      [WsAction.openSocket])
  else (s, [])

/-- `WebsocketTransport.disconnect`: set `manualClose`, clear `active`,
close the socket when it is currently OPEN, and null the reference. -/
def wsDisconnect (s : WsRuntime) : WsRuntime × List WsAction :=
  let s1 := { s with manualClose := true, active := false }
  let acts := if s1.hasSocket ∧ s1.socketOpen then [WsAction.closeSocket] else []
  ({ s1 with hasSocket := false, socketOpen := false }, acts)

/-- Asynchronous events that can reach the WebSocket driver after it is
set up: the socket firing its close event, or the reconnect timer
firing. -/
inductive WsEvent where
  | socketClosed
  | reconnectTimer
deriving DecidableEq, Repr

/-- One asynchronous step of the WebSocket driver. -/
def wsStep (cfg : WebsocketTransportConfig) (s : WsRuntime) :
    WsEvent → WsRuntime × List WsAction
  | WsEvent.socketClosed => onCloseHandler cfg s
  | WsEvent.reconnectTimer => reconnectTimerCallback s

/-- A sequence of asynchronous WebSocket driver steps, with the actions
they perform concatenated in order. -/
def wsRun (cfg : WebsocketTransportConfig) (s : WsRuntime) :
    List WsEvent → WsRuntime × List WsAction
  | [] => (s, [])
  | e :: es =>
    let r1 := wsStep cfg s e
    let r2 := wsRun cfg r1.1 es
    (r2.1, r1.2 ++ r2.2)

/-- Runtime configuration of the NDJSON transport
(`NdjsonTransportConfig` in `src/core/transport/ndjson.ts`). -/
structure NdjsonTransportConfig where
  endpoint : String
  headers : Option (List (String × String)) := none
  query : Option (List (String × Option String)) := none
  timeoutMs : Option Nat := none
deriving DecidableEq, Repr

/-- Runtime configuration of the SSE transport (`SseTransportConfig` in
`src/core/transport/sse.ts`). -/
structure SseTransportConfig where
  endpoint : String
  query : Option (List (String × Option String)) := none
  withCredentials : Option Bool := none
  retryIntervalMs : Option Nat := none
deriving DecidableEq, Repr

/-- A driver instance as constructed by the factory: the matching variant
holding its configuration plus its freshly initialized mutable fields
(`NdjsonTransport`: `abortController = null`, `active = false`;
`SseTransport`: `source = null`, `active = false`; `WebsocketTransport`:
the all-false `WsRuntime`). -/
inductive TransportInstance where
  | ndjson (config : NdjsonTransportConfig) (hasAbortController : Bool)
      (active : Bool)
  | sse (config : SseTransportConfig) (hasSource : Bool) (active : Bool)
  | websocket (config : WebsocketTransportConfig) (runtime : WsRuntime)
deriving DecidableEq, Repr

/-- The transport mode string a driver instance answers to. -/
def TransportInstance.variant : TransportInstance → String
  | TransportInstance.ndjson _ _ _ => "ndjson"
  | TransportInstance.sse _ _ _ => "sse"
  | TransportInstance.websocket _ _ => "websocket"

/-- A driver instance is fresh when every mutable field still has its
initial value: no connection resource held, not active, no handlers, no
manual close recorded. -/
def TransportInstance.isFresh : TransportInstance → Bool
  | TransportInstance.ndjson _ hasAC active => !hasAC && !active
  | TransportInstance.sse _ hasSource active => !hasSource && !active
  | TransportInstance.websocket _ rt =>
      !rt.hasSocket && !rt.socketOpen && !rt.hasHandlers && !rt.active &&
        !rt.manualClose

/-- `createTransportForDefinition` (`src/core/transport/factory.ts`): the
`switch` on `definition.mode` selects the matching driver class and
constructs a brand-new instance from the definition's endpoint, transport
options and mode-specific extras; the `default` branch throws an
`internal` `RTSKError` naming the offending mode.  The `switch` is
translated to successive equality tests on the mode string. -/
def createTransportForDefinition {Req M Raw V : Type}
    (d : StreamDef Req M Raw V) : Except RTSKError TransportInstance :=
  if d.mode = "ndjson" then
    Except.ok (TransportInstance.ndjson
      { endpoint := d.endpoint
        headers := d.transportOptions.bind TransportOptions.headers
        query := d.transportOptions.bind TransportOptions.query
        timeoutMs := d.transportOptions.bind TransportOptions.timeoutMs }
      false false)
  else if d.mode = "sse" then
    Except.ok (TransportInstance.sse
      { endpoint := d.endpoint
        query := d.transportOptions.bind TransportOptions.query
        withCredentials := d.sseOptions.bind SseOptions.withCredentials
        retryIntervalMs := d.sseOptions.bind SseOptions.retryIntervalMs }
      false false)
  else if d.mode = "websocket" then
    Except.ok (TransportInstance.websocket
      { endpoint := d.endpoint
        query := d.transportOptions.bind TransportOptions.query
        protocols := d.wsOptions.bind WsOptions.protocols
        autoReconnect := d.wsOptions.bind WsOptions.autoReconnect
        reconnectDelayMs := d.wsOptions.bind WsOptions.reconnectDelayMs }
      {})
  else
    Except.error
      ⟨RTSKErrorKind.internal, "Unsupported stream mode: " ++ d.mode, none⟩

/-- Recognizer for subscriber `onError` callback actions, used to count
error deliveries in a trace. -/
def isCbErrorAct {P V : Type} : CAction P V → Bool
  | CAction.cbError _ _ => true
  | _ => false

/-- A concrete stream definition whose hydrator always throws, used to
instantiate universally quantified theorems at a checkable input. -/
def hydThrowDef : StreamDef Unit Unit Unit Unit :=
  { mode := "ndjson", endpoint := "/stream",
    responseHydrator := fun _ => Except.error () }

/-- A concrete stream definition with an unsupported mode string, used to
instantiate the factory theorem's default branch. -/
def badModeDef : StreamDef Unit Unit Unit Unit :=
  { mode := "grpc", endpoint := "/stream",
    responseHydrator := fun _ => Except.ok () }

/-- The error the NDJSON driver delivers when its in-flight request is
aborted (the `AbortError` branch of the read loop's catch in
`src/core/transport/ndjson.ts`).  After the controller's forced
disconnect calls `abort()`, the pending `reader.read()` rejects and the
driver's catch still hands this transport-kind error to
`handlers.onError` — no flag is checked before delivering, so this
callback reaches the controller after the hydrate failure has already
been broadcast.  The `cause` is the opaque host exception;
`statusBefore` is not set. -/
def ndjsonAbortError : RTSKError :=
  ⟨RTSKErrorKind.transport, "NDJSON stream aborted", none⟩

/-- C6: for every controller that is already active, calling
`start(request?)` again is a no-op: the state (status, active flag,
transport) is unchanged, the trace is empty — so no subscriber
notification fires and no transport is created — and `isActive()`
remains `true`. -/
theorem start_is_noop_when_active {Req M Raw V : Type} (beh : ConnectBehavior)
    (d : StreamDef Req M Raw V) (request : Option Req) (discThrows : Bool)
    (s : ControllerState) (h : s.active = true) :
    startFn beh d request discThrows s = (s, []) ∧
    (startFn beh d request discThrows s).1.active = true := by
  constructor
  · simp [startFn, h]
  · simp [startFn, h]

/-- Witness for `start_is_noop_when_active`: a controller that is active
and streaming, started again. -/
theorem start_is_noop_when_active_witness :
    startFn ConnectBehavior.ok hydThrowDef none false
        ⟨RTSKStatus.streaming, true, [0], true⟩ =
      (⟨RTSKStatus.streaming, true, [0], true⟩, []) ∧
    (startFn ConnectBehavior.ok hydThrowDef none false
        ⟨RTSKStatus.streaming, true, [0], true⟩).1.active = true :=
  start_is_noop_when_active ConnectBehavior.ok hydThrowDef none false
    ⟨RTSKStatus.streaming, true, [0], true⟩ rfl

/-- C5 counterexample: on a freshly created controller (status `idle`,
inactive — exactly the state `createStream` returns), `stop()` is a
no-op: the status stays `idle` and does not become `stopped`, refuting
"calling stop() transitions the controller's status to stopped" for
every state. -/
theorem stop_from_idle_counterexample :
    (stopFn (P := Unit) (V := Unit) false (initialController [0])).1.status ≠
        RTSKStatus.stopped ∧
      stopFn (P := Unit) (V := Unit) false (initialController [0]) =
        (initialController [0], []) := by
  constructor
  · decide
  · decide

/-- C5 (amended): `stop()` transitions the status to `stopped` whenever
the controller is active or its status is `connecting` or `streaming`
(in particular from every state reachable while a run is in progress),
and clears the active flag; when the controller is inactive and in any
other status, `stop()` is a no-op. -/
theorem stop_transitions_to_stopped {P V : Type} (discThrows : Bool)
    (s : ControllerState) :
    (s.active = true ∨ s.status = RTSKStatus.connecting ∨
        s.status = RTSKStatus.streaming →
      (stopFn (P := P) (V := V) discThrows s).1.status = RTSKStatus.stopped ∧
      (stopFn (P := P) (V := V) discThrows s).1.active = false) ∧
    (s.active = false → s.status ≠ RTSKStatus.connecting →
        s.status ≠ RTSKStatus.streaming →
      stopFn (P := P) (V := V) discThrows s = (s, [])) := by
  constructor
  · intro h
    have hg : ¬((!s.active) = true ∧ s.status ≠ RTSKStatus.connecting ∧
        s.status ≠ RTSKStatus.streaming) := by
      rcases h with h | h | h <;> simp [h]
    simp only [stopFn, if_neg hg, disconnectTransportSafely, notifyStatus]
    split <;> split <;> (try split) <;> simp_all
  · intro h1 h2 h3
    simp [stopFn, h1, h2, h3]

/-- Witness for `stop_transitions_to_stopped`: a streaming active
controller is stopped; a fresh idle one is untouched. -/
theorem stop_transitions_to_stopped_witness :
    ((stopFn (P := Unit) (V := Unit) true
        ⟨RTSKStatus.streaming, true, [0], true⟩).1.status = RTSKStatus.stopped ∧
      (stopFn (P := Unit) (V := Unit) true
        ⟨RTSKStatus.streaming, true, [0], true⟩).1.active = false) ∧
    stopFn (P := Unit) (V := Unit) true ⟨RTSKStatus.idle, false, [0], false⟩ =
      (⟨RTSKStatus.idle, false, [0], false⟩, []) :=
  ⟨(stop_transitions_to_stopped true ⟨RTSKStatus.streaming, true, [0], true⟩).1
      (Or.inl rfl),
    (stop_transitions_to_stopped true ⟨RTSKStatus.idle, false, [0], false⟩).2
      rfl (by decide) (by decide)⟩

/-- C1: when a driver-reported error (resp. completion) is handled by a
controller holding a transport, the transport's `disconnect()` is the
first externally visible action; the status then becomes `error` (resp.
`completed`) with its `onStatusChange` fan-out, the active flag is
cleared, and only then is every subscriber's `onError` (resp.
`onComplete`) invoked — the returned trace lists these actions in
exactly that order. -/
theorem error_complete_disconnect_before_broadcast {P V : Type}
    (discThrows : Bool) (e : RTSKError) (s : ControllerState)
    (ht : s.transport = true) :
    (s.status ≠ RTSKStatus.error →
      notifyError (P := P) (V := V) discThrows e s =
        ({ s with
            status := RTSKStatus.error
            active := false
            transport := false },
          CAction.disconnectTransport ::
            (s.subscribers.map
                (fun i => CAction.cbStatusChange i RTSKStatus.error) ++
              s.subscribers.map (fun i => CAction.cbError i e)))) ∧
    (s.status ≠ RTSKStatus.completed →
      notifyComplete (P := P) (V := V) discThrows s =
        ({ s with
            status := RTSKStatus.completed
            active := false
            transport := false },
          CAction.disconnectTransport ::
            (s.subscribers.map
                (fun i => CAction.cbStatusChange i RTSKStatus.completed) ++
              s.subscribers.map (fun i => CAction.cbComplete i)))) := by
  constructor
  · intro hs
    simp [notifyError, disconnectTransportSafely, notifyStatus, ht, hs]
  · intro hs
    simp [notifyComplete, disconnectTransportSafely, notifyStatus, ht, hs]

/-- Witness for `error_complete_disconnect_before_broadcast`: a streaming
controller with two subscribers handling a driver `transport` error and,
separately, a driver completion. -/
theorem error_complete_disconnect_before_broadcast_witness :
    notifyError (P := Unit) (V := Unit) true
        ⟨RTSKErrorKind.transport, "boom", none⟩
        ⟨RTSKStatus.streaming, true, [0, 1], true⟩ =
      (⟨RTSKStatus.error, false, [0, 1], false⟩,
        CAction.disconnectTransport ::
          ([CAction.cbStatusChange 0 RTSKStatus.error,
            CAction.cbStatusChange 1 RTSKStatus.error] ++
            [CAction.cbError 0 ⟨RTSKErrorKind.transport, "boom", none⟩,
              CAction.cbError 1 ⟨RTSKErrorKind.transport, "boom", none⟩])) ∧
    notifyComplete (P := Unit) (V := Unit) true
        ⟨RTSKStatus.streaming, true, [0, 1], true⟩ =
      (⟨RTSKStatus.completed, false, [0, 1], false⟩,
        CAction.disconnectTransport ::
          ([CAction.cbStatusChange 0 RTSKStatus.completed,
            CAction.cbStatusChange 1 RTSKStatus.completed] ++
            [CAction.cbComplete 0, CAction.cbComplete 1])) :=
  ⟨(error_complete_disconnect_before_broadcast true
        ⟨RTSKErrorKind.transport, "boom", none⟩
        ⟨RTSKStatus.streaming, true, [0, 1], true⟩ rfl).1 (by decide),
    (error_complete_disconnect_before_broadcast true
        ⟨RTSKErrorKind.transport, "boom", none⟩
        ⟨RTSKStatus.streaming, true, [0, 1], true⟩ rfl).2 (by decide)⟩

/-- C4: `notifyStatus` is a no-op when the new status equals the current
one; otherwise the status is mutated first and `onStatusChange` is fanned
out to every current subscriber.  In particular, for a transition ending
in `error`, the trace places every subscriber's `onStatusChange(error)`
before any subscriber's `onError`, and the controller's status field —
what `getStatus()` reads inside the handlers — is already `error` when
the `onError` fan-out runs. -/
theorem status_change_idempotent_and_first {P V : Type} :
    (∀ s : ControllerState, notifyStatus (P := P) (V := V) s.status s = (s, [])) ∧
    (∀ (s : ControllerState) (ns : RTSKStatus), s.status ≠ ns →
      notifyStatus (P := P) (V := V) ns s =
        ({ s with status := ns },
          s.subscribers.map (fun i => CAction.cbStatusChange i ns))) ∧
    (∀ (discThrows : Bool) (e : RTSKError) (s : ControllerState),
      s.status ≠ RTSKStatus.error →
      (notifyError (P := P) (V := V) discThrows e s).1.status = RTSKStatus.error ∧
      (notifyError (P := P) (V := V) discThrows e s).2 =
        (if s.transport then [CAction.disconnectTransport] else []) ++
          s.subscribers.map (fun i => CAction.cbStatusChange i RTSKStatus.error) ++
          s.subscribers.map (fun i => CAction.cbError i e)) := by
  refine ⟨fun s => ?_, fun s ns hs => ?_, fun discThrows e s hs => ?_⟩
  · simp [notifyStatus]
  · simp [notifyStatus, hs]
  · constructor
    · by_cases ht : s.transport <;>
        simp [notifyError, disconnectTransportSafely, notifyStatus, hs, ht]
    · by_cases ht : s.transport <;>
        simp [notifyError, disconnectTransportSafely, notifyStatus, hs, ht]

/-- Witness for `status_change_idempotent_and_first`: idempotence on a
streaming controller, fan-out on an idle-to-connecting transition, and
the error ordering for a streaming run with one subscriber. -/
theorem status_change_idempotent_and_first_witness :
    notifyStatus (P := Unit) (V := Unit) RTSKStatus.streaming
        ⟨RTSKStatus.streaming, true, [0], true⟩ =
      (⟨RTSKStatus.streaming, true, [0], true⟩, []) ∧
    notifyStatus (P := Unit) (V := Unit) RTSKStatus.connecting
        ⟨RTSKStatus.idle, true, [0], false⟩ =
      (⟨RTSKStatus.connecting, true, [0], false⟩,
        [CAction.cbStatusChange 0 RTSKStatus.connecting]) ∧
    (notifyError (P := Unit) (V := Unit) false
        ⟨RTSKErrorKind.transport, "boom", none⟩
        ⟨RTSKStatus.streaming, true, [0], true⟩).2 =
      [CAction.disconnectTransport] ++
        [CAction.cbStatusChange 0 RTSKStatus.error] ++
        [CAction.cbError 0 ⟨RTSKErrorKind.transport, "boom", none⟩] :=
  ⟨(status_change_idempotent_and_first (P := Unit) (V := Unit)).1
      ⟨RTSKStatus.streaming, true, [0], true⟩,
    by
      have h2 := (status_change_idempotent_and_first (P := Unit) (V := Unit)).2.1
        ⟨RTSKStatus.idle, true, [0], false⟩ RTSKStatus.connecting (by decide)
      simpa using h2,
    by
      have h3 := ((status_change_idempotent_and_first (P := Unit) (V := Unit)).2.2
        false ⟨RTSKErrorKind.transport, "boom", none⟩
        ⟨RTSKStatus.streaming, true, [0], true⟩ (by decide)).2
      simpa using h3⟩

/-- C8: for a definition whose mode is `ndjson`, `sse` or `websocket`,
the factory returns a driver instance of the matching variant whose
mutable state is entirely fresh (no connection resource, inactive) —
and, being a pure function of the definition, it constructs such a fresh
instance on every call; for any other mode value it throws an `internal`
error whose message names the offending mode. -/
theorem factory_matches_mode {Req M Raw V : Type} (d : StreamDef Req M Raw V) :
    (d.mode = "ndjson" ∨ d.mode = "sse" ∨ d.mode = "websocket" →
      ∃ t, createTransportForDefinition d = Except.ok t ∧
        t.variant = d.mode ∧ t.isFresh = true) ∧
    (d.mode ≠ "ndjson" → d.mode ≠ "sse" → d.mode ≠ "websocket" →
      createTransportForDefinition d =
        Except.error
          ⟨RTSKErrorKind.internal, "Unsupported stream mode: " ++ d.mode,
            none⟩) := by
  constructor
  · intro h
    rcases h with h | h | h
    · exact ⟨TransportInstance.ndjson
        { endpoint := d.endpoint
          headers := d.transportOptions.bind TransportOptions.headers
          query := d.transportOptions.bind TransportOptions.query
          timeoutMs := d.transportOptions.bind TransportOptions.timeoutMs }
        false false,
        by simp [createTransportForDefinition, h],
        by simp [TransportInstance.variant, h],
        by simp [TransportInstance.isFresh]⟩
    · exact ⟨TransportInstance.sse
        { endpoint := d.endpoint
          query := d.transportOptions.bind TransportOptions.query
          withCredentials := d.sseOptions.bind SseOptions.withCredentials
          retryIntervalMs := d.sseOptions.bind SseOptions.retryIntervalMs }
        false false,
        by simp [createTransportForDefinition, h],
        by simp [TransportInstance.variant, h],
        by simp [TransportInstance.isFresh]⟩
    · exact ⟨TransportInstance.websocket
        { endpoint := d.endpoint
          query := d.transportOptions.bind TransportOptions.query
          protocols := d.wsOptions.bind WsOptions.protocols
          autoReconnect := d.wsOptions.bind WsOptions.autoReconnect
          reconnectDelayMs := d.wsOptions.bind WsOptions.reconnectDelayMs }
        {},
        by simp [createTransportForDefinition, h],
        by simp [TransportInstance.variant, h],
        by simp [TransportInstance.isFresh]⟩
  · intro h1 h2 h3
    simp [createTransportForDefinition, h1, h2, h3]

/-- Witness for `factory_matches_mode`: the `ndjson` branch on a concrete
definition and the default branch on a definition with mode `grpc`. -/
theorem factory_matches_mode_witness :
    (∃ t, createTransportForDefinition hydThrowDef = Except.ok t ∧
      t.variant = hydThrowDef.mode ∧ t.isFresh = true) ∧
    createTransportForDefinition badModeDef =
      Except.error
        ⟨RTSKErrorKind.internal, "Unsupported stream mode: grpc", none⟩ :=
  ⟨(factory_matches_mode hydThrowDef).1 (Or.inl rfl),
    (factory_matches_mode badModeDef).2 (by decide) (by decide) (by decide)⟩

/-- C9: when `start` is called with no request, the payload expression
never invokes the definition's `requestMapper` — even when one is present
— and evaluates to `undefined`; a transport `connect` receiving no
payload therefore builds, in the NDJSON driver, a `GET` request with no
body whose header map is exactly the caller-supplied headers, with no
automatic `Content-Type` entry. -/
theorem start_without_request_uses_get {Req M J : Type}
    (mapper : Option (Req → M)) (cfgHeaders : Option (List (String × String))) :
    computePayload mapper (none : Option Req) = (none, 0) ∧
    (ndjsonBuildRequest (J := J) cfgHeaders none).method = "GET" ∧
    (ndjsonBuildRequest (J := J) cfgHeaders none).body = none ∧
    ∀ k, (ndjsonBuildRequest (J := J) cfgHeaders none).headerOf k =
      List.lookup k (cfgHeaders.getD []) := by
  refine ⟨?_, rfl, rfl, fun k => ?_⟩
  · cases mapper <;> rfl
  · cases h : List.lookup k (cfgHeaders.getD []) <;>
      simp [ndjsonBuildRequest, h]

/-- C10: when the NDJSON driver does have a body, the caller-supplied
headers are spread after the automatic `Content-Type: application/json`
entry, so a caller-supplied `Content-Type` overrides the automatic one;
without such a caller entry the automatic value is used. -/
theorem content_type_override {J : Type} (j : J)
    (cfgHeaders : Option (List (String × String))) (v : String) :
    (List.lookup "Content-Type" (cfgHeaders.getD []) = some v →
      (ndjsonBuildRequest cfgHeaders (some j)).headerOf "Content-Type" =
        some v) ∧
    (List.lookup "Content-Type" (cfgHeaders.getD []) = none →
      (ndjsonBuildRequest cfgHeaders (some j)).headerOf "Content-Type" =
        some "application/json") := by
  constructor
  · intro h
    simp [ndjsonBuildRequest, h]
  · intro h
    simp [ndjsonBuildRequest, h]

/-- Witness for `content_type_override`: a caller header map that
overrides `Content-Type`, and one that does not mention it. -/
theorem content_type_override_witness :
    (ndjsonBuildRequest (some [("Content-Type", "text/plain")])
        (some ())).headerOf "Content-Type" = some "text/plain" ∧
    (ndjsonBuildRequest (some [("X-Token", "abc")])
        (some ())).headerOf "Content-Type" = some "application/json" :=
  ⟨(content_type_override () (some [("Content-Type", "text/plain")])
      "text/plain").1 (by decide),
    (content_type_override () (some [("X-Token", "abc")]) "").2 (by decide)⟩

/-- Once `manualClose` is set, any sequence of socket-close and
reconnect-timer events leaves it set and never opens a socket nor
schedules a reconnect. -/
theorem wsRun_manualClose_no_reconnect (cfg : WebsocketTransportConfig)
    (events : List WsEvent) :
    ∀ s : WsRuntime, s.manualClose = true →
      (wsRun cfg s events).1.manualClose = true ∧
      WsAction.openSocket ∉ (wsRun cfg s events).2 ∧
      ∀ dMs, WsAction.scheduleReconnect dMs ∉ (wsRun cfg s events).2 := by
  induction events with
  | nil => intro s h; simp [wsRun, h]
  | cons e es ih =>
    intro s h
    cases e
    · have hstep : (onCloseHandler cfg s).1.manualClose = true ∧
          WsAction.openSocket ∉ (onCloseHandler cfg s).2 ∧
          ∀ dMs, WsAction.scheduleReconnect dMs ∉ (onCloseHandler cfg s).2 := by
        by_cases hh : s.hasHandlers <;>
          simp [onCloseHandler, h, hh]
      have ihr := ih (onCloseHandler cfg s).1 hstep.1
      refine ⟨?_, ?_, ?_⟩
      · simpa [wsRun, wsStep] using ihr.1
      · simp only [wsRun, wsStep, List.mem_append]
        exact fun hc => hc.elim (fun hx => hstep.2.1 hx) (fun hx => ihr.2.1 hx)
      · intro dMs
        simp only [wsRun, wsStep, List.mem_append]
        exact fun hc => hc.elim (fun hx => hstep.2.2 dMs hx)
          (fun hx => ihr.2.2 dMs hx)
    · have hstep : reconnectTimerCallback s = (s, []) := by
        simp [reconnectTimerCallback, h]
      have ihr := ih s h
      refine ⟨?_, ?_, ?_⟩
      · simpa [wsRun, wsStep, hstep] using ihr.1
      · simpa [wsRun, wsStep, hstep] using ihr.2.1
      · intro dMs
        simpa [wsRun, wsStep, hstep] using ihr.2.2 dMs

/-- C7: on socket close with handlers registered, `onComplete` fires; if
the close was not caused by a manual disconnect and auto-reconnect is
enabled, a reconnect is scheduled after `reconnectDelayMs`, defaulting to
1000 ms when the option is absent; the timer callback opens a new socket
only when no manual disconnect happened in the interim; and after
`disconnect()` no sequence of close/timer events ever opens a socket or
schedules a reconnect again. -/
theorem websocket_close_reconnect_discipline (cfg : WebsocketTransportConfig)
    (s : WsRuntime) :
    (s.hasHandlers = true →
      onCloseHandler cfg s =
        ({ s with active := false, socketOpen := false },
          WsAction.complete ::
            (if s.manualClose = false ∧ cfg.autoReconnect = some true then
              [WsAction.scheduleReconnect (cfg.reconnectDelayMs.getD 1000)]
            else []))) ∧
    (s.hasHandlers = true → s.manualClose = false →
        cfg.autoReconnect = some true → cfg.reconnectDelayMs = none →
      (onCloseHandler cfg s).2 =
        [WsAction.complete, WsAction.scheduleReconnect 1000]) ∧
    (s.manualClose = false → s.hasHandlers = true →
      reconnectTimerCallback s =
        ({ s with hasSocket := true, socketOpen := false, active := true },
          [WsAction.openSocket])) ∧
    (s.manualClose = true → reconnectTimerCallback s = (s, [])) ∧
    (∀ events : List WsEvent,
      WsAction.openSocket ∉ (wsRun cfg (wsDisconnect s).1 events).2 ∧
      ∀ dMs, WsAction.scheduleReconnect dMs ∉
        (wsRun cfg (wsDisconnect s).1 events).2) := by
  refine ⟨fun hh => ?_, fun hh hm ha hr => ?_, fun hm hh => ?_,
    fun hm => ?_, fun events => ?_⟩
  · by_cases hc : s.manualClose = false ∧ cfg.autoReconnect = some true <;>
      simp [onCloseHandler, hh, hc]
  · simp [onCloseHandler, hh, hm, ha, hr]
  · simp [reconnectTimerCallback, hm, hh]
  · simp [reconnectTimerCallback, hm]
  · have hd : (wsDisconnect s).1.manualClose = true := by
      simp [wsDisconnect]
    have h := wsRun_manualClose_no_reconnect cfg events (wsDisconnect s).1 hd
    exact ⟨h.2.1, h.2.2⟩

/-- Witness for `websocket_close_reconnect_discipline`: an auto-reconnect
configuration with no explicit delay, a connected runtime, a close not
caused by disconnect, a timer fire after a manual close, and the
post-disconnect event sequence close-then-timer. -/
theorem websocket_close_reconnect_discipline_witness :
    onCloseHandler ⟨"ws://h", none, none, some true, none⟩
        ⟨true, true, true, true, false⟩ =
      (⟨true, false, true, false, false⟩,
        WsAction.complete :: [WsAction.scheduleReconnect 1000]) ∧
    reconnectTimerCallback ⟨false, false, true, false, true⟩ =
      (⟨false, false, true, false, true⟩, []) ∧
    WsAction.openSocket ∉
      (wsRun ⟨"ws://h", none, none, some true, none⟩
        (wsDisconnect ⟨true, true, true, true, false⟩).1
        [WsEvent.socketClosed, WsEvent.reconnectTimer]).2 := by
  refine ⟨?_, ?_, ?_⟩
  · have h := (websocket_close_reconnect_discipline
      ⟨"ws://h", none, none, some true, none⟩
      ⟨true, true, true, true, false⟩).1 rfl
    simpa using h
  · exact (websocket_close_reconnect_discipline
      ⟨"ws://h", none, none, some true, none⟩
      ⟨false, false, true, false, true⟩).2.2.2.1 rfl
  · exact ((websocket_close_reconnect_discipline
      ⟨"ws://h", none, none, some true, none⟩
      ⟨true, true, true, true, false⟩).2.2.2.2
      [WsEvent.socketClosed, WsEvent.reconnectTimer]).1

/-- With no request supplied, the payload expression evaluates to
`undefined` and does not invoke the mapper, whatever the mapper is. -/
theorem computePayload_none {Req M : Type} (mapper : Option (Req → M)) :
    computePayload mapper (none : Option Req) = (none, 0) := by
  cases mapper <;> rfl

/-- A status-change fan-out contains no `onError` callback. -/
theorem filter_cbError_statusChange {P V : Type} (subs : List Nat)
    (st : RTSKStatus) :
    (subs.map (fun i => CAction.cbStatusChange (P := P) (V := V) i st)).filter
      isCbErrorAct = [] := by
  induction subs with
  | nil => rfl
  | cons a l ih => simp [isCbErrorAct, ih]

/-- An `onError` fan-out consists exactly of `onError` callbacks. -/
theorem filter_cbError_map {P V : Type} (subs : List Nat) (e : RTSKError) :
    (subs.map (fun i => CAction.cbError (P := P) (V := V) i e)).filter
      isCbErrorAct = subs.map (fun i => CAction.cbError i e) := by
  induction subs with
  | nil => rfl
  | cons a l ih => simp [isCbErrorAct, ih]

/-- Driver callbacks delivered after the controller has reached the
terminal `error` state leave the status at `error` and the active flag
cleared, as long as none of them is a completion: a further raw value
either fans out `onNext` without touching the status or routes another
hydrate error through `notifyError` (whose status transition is then a
no-op), and a further driver error does the same. -/
theorem runDriver_error_state_stable {P Raw V : Type}
    (hyd : Raw → Except Unit V) (discThrows : Bool)
    (events : List (DriverEvent Raw))
    (hc : DriverEvent.complete ∉ events) :
    ∀ s : ControllerState, s.status = RTSKStatus.error → s.active = false →
      (runDriver (P := P) hyd discThrows s events).1.status =
          RTSKStatus.error ∧
        (runDriver (P := P) hyd discThrows s events).1.active = false := by
  induction events with
  | nil =>
      intro s h1 h2
      simpa [runDriver] using ⟨h1, h2⟩
  | cons ev es ih =>
      intro s h1 h2
      have hc' := hc
      rw [List.mem_cons] at hc'
      push_neg at hc'
      have hstep : (deliverEvent (P := P) hyd discThrows s ev).1.status =
          RTSKStatus.error ∧
          (deliverEvent (P := P) hyd discThrows s ev).1.active = false := by
        cases ev with
        | raw v =>
            cases hv : hyd v with
            | ok w =>
                simp [deliverEvent, handleRaw, hv, notifyStatus, h1, h2]
            | error u =>
                by_cases ht : s.transport <;>
                  simp [deliverEvent, handleRaw, hv, notifyError,
                    disconnectTransportSafely, notifyStatus, h1, h2, ht]
        | error e =>
            by_cases ht : s.transport <;>
              simp [deliverEvent, notifyError, disconnectTransportSafely,
                notifyStatus, h1, h2, ht]
        | complete => exact absurd rfl hc'.1
      have hrec := ih hc'.2 (deliverEvent (P := P) hyd discThrows s ev).1
        hstep.1 hstep.2
      exact ⟨by simpa [runDriver] using hrec.1,
        by simpa [runDriver] using hrec.2⟩

/-- C2 counterexample: the claim's "exactly one onError" fails on the
program.  For a single-line NDJSON body and an always-throwing
hydrator, the driver's callback sequence is the raw line followed by
the abort-derived transport error: the hydrate failure makes the
controller force-disconnect, the disconnect's `abort()` makes the
pending `reader.read()` reject, and the driver's catch still delivers
`ndjsonAbortError` to `handlers.onError`.  The lone subscriber hence
receives two `onError` callbacks — the hydrate one and then the
transport one — not exactly one. -/
theorem hydration_failure_second_error_counterexample :
    (runStream hydThrowDef none false
        [DriverEvent.raw (), DriverEvent.error ndjsonAbortError]
        (initialController [0])).2.filter isCbErrorAct =
      [CAction.cbError 0
          ⟨RTSKErrorKind.hydrate, "Failed to hydrate stream payload",
            some RTSKStatus.streaming⟩,
        CAction.cbError 0 ndjsonAbortError] ∧
    ((runStream hydThrowDef none false
        [DriverEvent.raw (), DriverEvent.error ndjsonAbortError]
        (initialController [0])).2.filter isCbErrorAct).length ≠ 1 := by
  constructor
  · decide
  · decide

/-- C2 (amended): for a definition whose hydrator always throws, a
started run that receives a raw value reaches `getStatus() = error`
with the active flag cleared, and stays there through whatever further
non-completion callbacks the driver delivers (the NDJSON driver
delivers no completion after an error: its catch path skips
`onComplete`); the first `onError` each subscriber receives — the
first `subs.length` entries of the trace's `onError` filter, one per
subscriber in fan-out order — has kind `hydrate` and carries in
`statusBefore` the status prior to the failure (`streaming`, since the
optimistic promotion in `start` precedes the first asynchronous
delivery).  Later driver callbacks can add further `onError`s, such as
the abort-derived transport error, so exactly-one-onError does not
hold in general. -/
theorem hydration_failure_first_error_hydrate {Req M Raw V : Type}
    (d : StreamDef Req M Raw V) (subs : List Nat) (v : Raw)
    (rest : List (DriverEvent Raw)) (discThrows : Bool)
    (hd : ∀ r, d.responseHydrator r = Except.error ())
    (hc : DriverEvent.complete ∉ rest) :
    (runStream d none discThrows (DriverEvent.raw v :: rest)
        (initialController subs)).1.status = RTSKStatus.error ∧
    (runStream d none discThrows (DriverEvent.raw v :: rest)
        (initialController subs)).1.active = false ∧
    ((runStream d none discThrows (DriverEvent.raw v :: rest)
        (initialController subs)).2.filter isCbErrorAct).take subs.length =
      subs.map (fun i => CAction.cbError i
        ⟨RTSKErrorKind.hydrate, "Failed to hydrate stream payload",
          some RTSKStatus.streaming⟩) := by
  have hstart : startFn ConnectBehavior.ok d none discThrows
      (initialController subs) =
      (⟨RTSKStatus.streaming, true, subs, true⟩,
        subs.map (fun i => CAction.cbStatusChange i RTSKStatus.connecting) ++
          [CAction.createTransport, CAction.connectCall none] ++
          subs.map (fun i => CAction.cbStatusChange i RTSKStatus.streaming)) := by
    simp [startFn, initialController, notifyStatus, computePayload_none]
  have hfirst : deliverEvent (P := Option (Req ⊕ M)) d.responseHydrator
      discThrows ⟨RTSKStatus.streaming, true, subs, true⟩
      (DriverEvent.raw v) =
      (⟨RTSKStatus.error, false, subs, false⟩,
        CAction.disconnectTransport ::
          (subs.map (fun i => CAction.cbStatusChange i RTSKStatus.error) ++
            subs.map (fun i => CAction.cbError i
              ⟨RTSKErrorKind.hydrate, "Failed to hydrate stream payload",
                some RTSKStatus.streaming⟩))) := by
    simp [deliverEvent, handleRaw, hd, notifyError,
      disconnectTransportSafely, notifyStatus]
  have hstab := runDriver_error_state_stable (P := Option (Req ⊕ M))
    d.responseHydrator discThrows rest hc
    ⟨RTSKStatus.error, false, subs, false⟩ rfl rfl
  refine ⟨?_, ?_, ?_⟩
  · simpa [runStream, runDriver, hstart, hfirst] using hstab.1
  · simpa [runStream, runDriver, hstart, hfirst] using hstab.2
  · simp only [runStream, runDriver, hstart, hfirst]
    simp only [List.filter_append, List.filter_cons,
      filter_cbError_statusChange, filter_cbError_map]
    simp only [isCbErrorAct, List.nil_append, Bool.false_eq_true,
      if_false, reduceIte]
    rw [show subs.length =
        (subs.map (fun i => CAction.cbError
          (P := Option (Req ⊕ M)) (V := V) i
          ⟨RTSKErrorKind.hydrate, "Failed to hydrate stream payload",
            some RTSKStatus.streaming⟩)).length from
        (List.length_map _ _).symm]
    exact List.take_left _ _

/-- Witness for `hydration_failure_first_error_hydrate`: the concrete
always-throwing definition, two subscribers, one raw value followed by
the NDJSON abort-derived transport error. -/
theorem hydration_failure_first_error_hydrate_witness :
    (runStream hydThrowDef none false
        (DriverEvent.raw () :: [DriverEvent.error ndjsonAbortError])
        (initialController [0, 1])).1.status = RTSKStatus.error ∧
    (runStream hydThrowDef none false
        (DriverEvent.raw () :: [DriverEvent.error ndjsonAbortError])
        (initialController [0, 1])).1.active = false ∧
    ((runStream hydThrowDef none false
        (DriverEvent.raw () :: [DriverEvent.error ndjsonAbortError])
        (initialController [0, 1])).2.filter isCbErrorAct).take
        (List.length [0, 1]) =
      [0, 1].map (fun i => CAction.cbError i
        ⟨RTSKErrorKind.hydrate, "Failed to hydrate stream payload",
          some RTSKStatus.streaming⟩) :=
  hydration_failure_first_error_hydrate hydThrowDef [0, 1] ()
    [DriverEvent.error ndjsonAbortError] false (fun _ => rfl) (by decide)

/-- `split(/\r?\n/)` always yields at least one segment, like its
JavaScript counterpart. -/
theorem splitRN_ne_nil (l : List Char) : splitRN l ≠ [] := by
  induction l using splitRN.induct <;> simp [splitRN, consHead]
  case case4 c rest h1 h2 ih =>
    cases h : splitRN rest <;> simp [consHead]

/-- The default of `getLastD` is irrelevant on a nonempty list. -/
theorem getLastD_default_irrel {α : Type} (l : List α) (h : l ≠ []) (d₁ d₂ : α) :
    l.getLastD d₁ = l.getLastD d₂ := by
  obtain ⟨y, hy⟩ := Option.isSome_iff_exists.mp (List.getLast?_isSome.mpr h)
  simp [List.getLastD_eq_getLast?, hy]

/-- A text with no `\n` has no separator: it is one single segment
(a lone `\r` is not a boundary). -/
theorem splitRN_single (l : List Char) (h : '\n' ∉ l) : splitRN l = [l] := by
  induction l using splitRN.induct with
  | case1 => rfl
  | case2 rest ih => simp at h
  | case3 rest ih => simp at h
  | case4 c rest h1 h2 ih =>
      have hr : '\n' ∉ rest := fun hx => h (List.mem_cons_of_mem c hx)
      simp [splitRN, ih hr, consHead]

/-- When the split yields a single segment, that segment is the whole
input. -/
theorem splitRN_single_eq (l y : List Char) (h : splitRN l = [y]) : y = l := by
  induction l using splitRN.induct generalizing y with
  | case1 => simp [splitRN] at h; exact h
  | case2 rest ih =>
      exfalso
      have := splitRN_ne_nil rest
      simp [splitRN] at h
      exact this h.2
  | case3 rest ih =>
      exfalso
      have := splitRN_ne_nil rest
      simp [splitRN] at h
      exact this h.2
  | case4 c rest h1 h2 ih =>
      cases hs : splitRN rest with
      | nil => exact absurd hs (splitRN_ne_nil rest)
      | cons s ss =>
          have hsp : splitRN (c :: rest) = (c :: s) :: ss := by
            simp [splitRN, hs, consHead]
          rw [hsp] at h
          injection h with hh ht
          subst ht
          have hrs : s = rest := ih s (by rw [hs])
          rw [← hh, hrs]

/-- The last segment of a split — what the driver keeps as its buffer —
never contains a `\n`. -/
theorem splitRN_getLastD_no_newline (l : List Char) :
    '\n' ∉ (splitRN l).getLastD [] := by
  induction l using splitRN.induct with
  | case1 => simp [splitRN]
  | case2 rest ih =>
      have hne := splitRN_ne_nil rest
      simp only [splitRN, List.getLastD_cons]
      rwa [getLastD_default_irrel (splitRN rest) hne [] []] at ih
  | case3 rest ih =>
      have hne := splitRN_ne_nil rest
      simp only [splitRN, List.getLastD_cons]
      rwa [getLastD_default_irrel (splitRN rest) hne [] []] at ih
  | case4 c rest h1 h2 ih =>
      cases hs : splitRN rest with
      | nil => exact absurd hs (splitRN_ne_nil rest)
      | cons s ss =>
          have hsp : splitRN (c :: rest) = (c :: s) :: ss := by
            simp [splitRN, hs, consHead]
          rw [hsp]
          cases ss with
          | nil =>
              simp only [List.getLastD_cons, List.getLastD_nil]
              intro hmem
              rcases List.mem_cons.mp hmem with hx | hx
              · exact h2 hx.symm
              · have : '\n' ∈ (splitRN rest).getLastD [] := by
                  rw [hs]; simpa using hx
                exact ih this
          | cons t ts =>
              rw [List.getLastD_cons]
              rw [getLastD_default_irrel (t :: ts) (by simp) (c :: s) []]
              have : (splitRN rest).getLastD [] = (t :: ts).getLastD [] := by
                rw [hs, List.getLastD_cons,
                  getLastD_default_irrel (t :: ts) (by simp) s []]
              rwa [this] at ih

/-- Unfolding equation for the default branch of `splitRN`: a head
character that is not `\n` and does not start a `\r\n` pair is
prepended to the first segment of the tail's split. -/
theorem splitRN_cons_default (c : Char) (l : List Char) (hc : c ≠ '\n')
    (hcr : c = '\r' → l.head? ≠ some '\n') :
    splitRN (c :: l) = consHead c (splitRN l) := by
  rw [splitRN.eq_def]
  split
  · simp_all
  · rename_i rest heq
    injection heq with h1 h2
    exact absurd (by rw [h2]; rfl) (hcr h1)
  · rename_i rest heq
    injection heq with h1 h2
    exact absurd h1 hc
  · rename_i c' rest hA hB heq
    injection heq with h1 h2
    rw [h1, h2]

/-- Compositionality of the split under concatenation: splitting `a ++ b`
yields the complete segments of `a`, then the split of `a`'s trailing
partial segment re-joined with `b` — exactly the re-splitting the
driver's buffer performs when the next chunk arrives. -/
theorem splitRN_append (b : List Char) :
    ∀ a : List Char, splitRN (a ++ b) =
      (splitRN a).dropLast ++ splitRN ((splitRN a).getLastD [] ++ b) := by
  intro a
  induction a using splitRN.induct with
  | case1 => simp [splitRN]
  | case2 rest ih =>
      cases hs : splitRN rest with
      | nil => exact absurd hs (splitRN_ne_nil rest)
      | cons s ss =>
          rw [hs] at ih
          have l1 : splitRN (('\r' :: '\n' :: rest) ++ b) =
              [] :: splitRN (rest ++ b) := by
            simp [splitRN]
          have l2 : splitRN ('\r' :: '\n' :: rest) = [] :: s :: ss := by
            simp [splitRN, hs]
          rw [l1, l2, ih]
          simp [List.getLastD_cons]
  | case3 rest ih =>
      cases hs : splitRN rest with
      | nil => exact absurd hs (splitRN_ne_nil rest)
      | cons s ss =>
          rw [hs] at ih
          have l1 : splitRN (('\n' :: rest) ++ b) = [] :: splitRN (rest ++ b) := by
            simp [splitRN]
          have l2 : splitRN ('\n' :: rest) = [] :: s :: ss := by
            simp [splitRN, hs]
          rw [l1, l2, ih]
          simp [List.getLastD_cons]
  | case4 c rest h1 h2 ih =>
      cases rest with
      | nil =>
          have hl : splitRN [c] = [[c]] := by
            rw [splitRN_cons_default c [] h2 (fun _ => by simp)]
            rfl
          rw [hl]
          simp
      | cons x rs =>
          cases hs : splitRN (x :: rs) with
          | nil => exact absurd hs (splitRN_ne_nil _)
          | cons s ss =>
              rw [hs] at ih
              have hx : c = '\r' → (x :: rs).head? ≠ some '\n' := by
                intro hc hh
                simp at hh
                exact h1 rs hc (by rw [hh])
              have hxb : c = '\r' → ((x :: rs) ++ b).head? ≠ some '\n' := by
                intro hc hh
                simp at hh
                exact h1 rs hc (by rw [hh])
              have lL : splitRN (c :: ((x :: rs) ++ b)) =
                  consHead c (splitRN ((x :: rs) ++ b)) :=
                splitRN_cons_default c _ h2 hxb
              have lA : splitRN (c :: (x :: rs)) = consHead c (splitRN (x :: rs)) :=
                splitRN_cons_default c _ h2 hx
              rw [List.cons_append, lL, ih, lA, hs]
              cases ss with
              | nil =>
                  have hseq : s = x :: rs := splitRN_single_eq _ _ hs
                  have hsb : c = '\r' → (s ++ b).head? ≠ some '\n' := by
                    intro hc hh
                    rw [hseq] at hh
                    simp at hh
                    exact h1 rs hc (by rw [hh])
                  simp only [consHead, List.dropLast_single,
                    List.getLastD_cons, List.getLastD_nil, List.nil_append,
                    List.cons_append]
                  rw [splitRN_cons_default c (s ++ b) h2 hsb]
                  rfl
              | cons t ts =>
                  have hir1 : (t :: ts).getLastD s = (t :: ts).getLastD [] :=
                    getLastD_default_irrel _ (by simp) _ _
                  have hir2 : (t :: ts).getLastD (c :: s) = (t :: ts).getLastD [] :=
                    getLastD_default_irrel _ (by simp) _ _
                  simp [consHead, List.getLastD_cons, hir1, hir2]

/-- Per-line event emission distributes over list concatenation. -/
theorem feedLines_append {Raw : Type} (parse : List Char → Option Raw)
    (l1 l2 : List (List Char)) :
    feedLines parse (l1 ++ l2) = feedLines parse l1 ++ feedLines parse l2 := by
  induction l1 with
  | nil => rfl
  | cons x xs ih => simp [feedLines, ih]

/-- Generalized refinement: from any newline-free buffer, the incremental
read loop emits the same events as splitting the buffer plus all
remaining text at once. -/
theorem connectLoop_eq_spec {Raw : Type} (parse : List Char → Option Raw)
    (chunks : List (List Char)) :
    ∀ buffer : List Char, '\n' ∉ buffer →
      connectLoop parse buffer chunks =
        feedLines parse (splitRN (buffer ++ chunks.flatten)) ++
          [NdEvent.complete] := by
  induction chunks with
  | nil =>
      intro buffer hb
      simp [connectLoop, splitRN_single _ hb, feedLines]
  | cons chunk rest ih =>
      intro buffer hb
      have hbuf2 : '\n' ∉ (splitRN (buffer ++ chunk)).getLastD [] :=
        splitRN_getLastD_no_newline _
      have := ih ((splitRN (buffer ++ chunk)).getLastD []) hbuf2
      simp only [connectLoop, this]
      have htext : buffer ++ (chunk ++ rest.flatten) =
          (buffer ++ chunk) ++ rest.flatten := (List.append_assoc _ _ _).symm
      rw [List.flatten_cons, htext,
        splitRN_append rest.flatten (buffer ++ chunk), feedLines_append]
      simp

/-- C3: for every response body (any chunking of the decoded text), the
NDJSON driver's incremental processing — split the accumulated text on
`\n` / `\r\n` boundaries, trim each complete line, skip it when
blank, otherwise JSON-parse it and emit `onRaw`, emitting one `protocol`
error for a line that fails to parse and continuing with subsequent
lines, with the remaining buffered partial line flushed through the same
path after the read loop ends and `onComplete` emitted last — produces
exactly the per-line events of the whole body text processed at once
followed by `onComplete`, independent of the chunk boundaries. -/
theorem ndjson_incremental_eq_spec {Raw : Type} (parse : List Char → Option Raw)
    (chunks : List (List Char)) :
    ndjsonStreamEvents parse chunks = ndjsonSpecEvents parse chunks.flatten := by
  have h := connectLoop_eq_spec parse chunks [] (by simp)
  simpa [ndjsonStreamEvents, ndjsonSpecEvents] using h

